/-
Verification of `coverage_report.py` (RSWilson1/coverage_exercise).

The script is a linear pandas pipeline:
  read_sambamba_input → check_coverage → write_output_excels
driven by `main` (single-file mode or directory mode via `find_files`).

Shallow embedding conventions:
  * a dataframe is a `List` of row structures, in file order;
  * `percentage30` / `meanCoverage` (pandas float64) are modelled as `ℚ`;
  * the threshold is `Int` (argparse `type=int`);
  * Python `s.split(';')` is modelled character-wise via `List.splitOn`
    (for a one-character separator the two agree exactly);
  * pandas `Series.str.split(';', expand=True)` produces as many columns as
    the longest per-row token list (rows with fewer tokens are padded with
    NaN, modelled as `none`); assigning the result to the two-column key
    `[['GeneSymbol', 'Accession']]` raises
    `ValueError: Columns must be same length as key` unless the expansion
    has exactly two columns.  Fallible steps therefore return `Except`.
  * pandas `Series.unique()` keeps first occurrences, modelled by `pdUnique`;
    `groupby(sort=True)` additionally sorts the group keys, which only
    permutes summary rows and is irrelevant to every property below.
-/

import Mathlib

namespace CoverageReport

/-- A row of the sambamba input table as parsed by `read_sambamba_input`
before the compound-key split: the eleven columns documented in the
reader's docstring. -/
structure RawSambambaRow where
  chromosome : String
  startPosition : Int
  endPosition : Int
  fullPosition : String
  notUsed : Int
  notUsedDot1 : String
  geneSymbolAccession : String
  size : Int
  readCount : Int
  meanCoverage : ℚ
  percentage30 : ℚ
  sampleName : String
deriving DecidableEq, Repr

/-- A row after `read_sambamba_input` has added the two derived columns
`GeneSymbol` and `Accession` (the `Accession` cell is NaN — here `none` —
when the compound key yielded a single token). -/
structure SambambaRow extends RawSambambaRow where
  geneSymbol : String
  accession : Option String
deriving DecidableEq, Repr

/-- Python `s.split(';')`: split on every semicolon, keeping empty pieces. -/
def pySplitSemi (s : String) : List String :=
  (s.data.splitOn ';').map (fun cs => String.mk cs)

/-- pandas `Series.unique()`: distinct values in order of first occurrence
(each head is kept and all of its later duplicates are dropped). -/
def pdUnique {α : Type} [DecidableEq α] : List α → List α
  | [] => []
  | x :: xs => x :: (pdUnique xs).filter (fun y => y ≠ x)

/-- Number of columns produced by `Series.str.split(';', expand=True)`:
the longest token list over all rows. -/
def expandWidth (keys : List String) : Nat :=
  (keys.map (fun k => (pySplitSemi k).length)).foldl max 0

/-- The compound-key split of `read_sambamba_input` (lines 135–138):
`df[['GeneSymbol', 'Accession']] = df["GeneSymbol;Accession"].str.split(';', expand=True)`.
Succeeds exactly when the expansion has two columns; otherwise pandas raises
`ValueError: Columns must be same length as key`. -/
def read_sambamba_input (rows : List RawSambambaRow) : Except String (List SambambaRow) :=
  if expandWidth (rows.map (·.geneSymbolAccession)) = 2 then
    .ok (rows.map (fun r =>
      { toRawSambambaRow := r
        geneSymbol := (pySplitSemi r.geneSymbolAccession).headD ""
        accession := (pySplitSemi r.geneSymbolAccession).get? 1 }))
  else
    .error "Columns must be same length as key"

/-- `check_coverage` line 165: exon rows strictly below threshold. -/
def lowCoverageExons (df : List SambambaRow) (threshold : Int) : List SambambaRow :=
  df.filter (fun r => r.percentage30 < (threshold : ℚ))

/-- `check_coverage` lines 172–173: the distinct `GeneSymbol`s of the
under-threshold rows (`.unique()`). -/
def low_coverage_genes_list (df : List SambambaRow) (threshold : Int) : List String :=
  pdUnique ((lowCoverageExons df threshold).map (·.geneSymbol))

/-- `check_coverage` lines 177–179: all rows whose `GeneSymbol` is in the
low-coverage gene list (`isin`), together with that list. -/
def check_coverage (df : List SambambaRow) (threshold : Int) :
    List SambambaRow × List String :=
  (df.filter (fun r => r.geneSymbol ∈ low_coverage_genes_list df threshold),
   low_coverage_genes_list df threshold)

/-- `parse_args` line 47: the `--threshold` default. -/
def default_threshold : Int := 100

/-- pandas `agg('min')` of a group's values (groups are never empty). -/
def aggMin : List ℚ → ℚ
  | [] => 0
  | x :: xs => xs.foldl min x

/-- pandas `agg('max')` of a group's values. -/
def aggMax : List ℚ → ℚ
  | [] => 0
  | x :: xs => xs.foldl max x

/-- pandas `agg('mean')`: arithmetic mean of the group's values. -/
def aggMean (l : List ℚ) : ℚ :=
  l.sum / (l.length : ℚ)

/-- pandas `agg('median')`: sort the values; the middle one for odd-sized
groups, the average of the two middle ones for even-sized groups. -/
def aggMedian (l : List ℚ) : ℚ :=
  let s := l.insertionSort (· ≤ ·)
  if l.length % 2 = 1 then s.getD (l.length / 2) 0
  else (s.getD (l.length / 2 - 1) 0 + s.getD (l.length / 2) 0) / 2

/-- One row of the summary report, fields in the column order of
`write_output_excels` lines 221–224. -/
structure SummaryRow where
  geneSymbol : String
  accession : Option String
  lowestCoverage : ℚ
  highestCoverage : ℚ
  meanCoveragePerExon : ℚ
  medianCoveragePerExon : ℚ
deriving DecidableEq, Repr

/-- The column order of the summary report after the reorder at
`write_output_excels` lines 221–224. -/
def summary_columns : List String :=
  ["GeneSymbol", "Accession", "LowestCoverage", "HighestCoverage",
   "MeanCoveragePerExon", "MedianCoveragePerExon"]

/-- The `percentage30` values of one `groupby('GeneSymbol;Accession')`
group of the low-coverage subset. -/
def groupValues (subset : List SambambaRow) (key : String) : List ℚ :=
  (subset.filter (fun r => r.geneSymbolAccession = key)).map (·.percentage30)

/-- The distinct `GeneSymbol;Accession` group keys of the subset
(`groupby` sorts them; the order never matters below). -/
def summaryKeys (subset : List SambambaRow) : List String :=
  pdUnique (subset.map (·.geneSymbolAccession))

/-- One summary row of `write_output_excels` lines 206–224: the group `k`
of the `groupby('GeneSymbol;Accession')`, its `percentage30` values
aggregated by min/max/mean/median, the key split into
`GeneSymbol`/`Accession`. -/
def summaryRowOf (subset : List SambambaRow) (k : String) : SummaryRow :=
  { geneSymbol := (pySplitSemi k).headD ""
    accession := (pySplitSemi k).get? 1
    lowestCoverage := aggMin (groupValues subset k)
    highestCoverage := aggMax (groupValues subset k)
    meanCoveragePerExon := aggMean (groupValues subset k)
    medianCoveragePerExon := aggMedian (groupValues subset k) }

/-- The summary dataframe built by `write_output_excels` lines 206–224:
one `summaryRowOf` per distinct group key.  The key split is the same
two-column `expand=True` assignment as in the reader and raises unless it
yields exactly two columns (in particular on an empty subset, whose
expansion has zero columns). -/
def summaryDf (subset : List SambambaRow) : Except String (List SummaryRow) :=
  if expandWidth (summaryKeys subset) = 2 then
    .ok ((summaryKeys subset).map (summaryRowOf subset))
  else
    .error "Columns must be same length as key"

/-- Content of one written spreadsheet file. -/
inductive Output where
  | summary (rows : List SummaryRow)
  | detail (rows : List SambambaRow)
deriving DecidableEq, Repr

/-- `write_output_excels`: builds the summary dataframe, then writes
`<output_file_prefix>_summary_report.xlsx` followed by
`<output_file_prefix>_report.xlsx` (lines 225–232), as a list of
(file name, content) pairs.  An error while building the summary aborts
before anything is written. -/
def write_output_excels (subset : List SambambaRow) (outPre : String) :
    Except String (List (String × Output)) :=
  (summaryDf subset).map (fun s =>
    [(outPre ++ "_summary_report.xlsx", .summary s),
     (outPre ++ "_report.xlsx", .detail subset)])

/-- `generate_single_report` lines 256–260: read, filter, write.  Note the
prefix actually passed to `write_output_excels` is
`f"{output_file_prefix}_report.xlsx"`. -/
def generate_single_report (raw : List RawSambambaRow) (outPre : String)
    (threshold : Int) : Except String (List (String × Output)) :=
  (read_sambamba_input raw).bind (fun df =>
    write_output_excels (check_coverage df threshold).1
      (outPre ++ "_report.xlsx"))

/-- Python `s.endswith(suffix)`, character-wise. -/
def pyEndsWith (s suf : String) : Bool :=
  suf.data.reverse.isPrefixOf s.data.reverse

/-- Python `s.split('.')[0]`: the text before the first dot (the whole
string when there is none). -/
def pySplitDotHead (s : String) : String :=
  String.mk (s.data.takeWhile (fun c => c ≠ '.'))

/-- `find_files` lines 52–74: keep the directory entries ending in
`sambamba_output.txt` or `sambamba_output.tsv`, pairing each with its
prefix `file.split('.')[0]`. -/
def find_files (directory : List String) : List (String × String) :=
  (directory.filter (fun f =>
      pyEndsWith f "sambamba_output.txt" || pyEndsWith f "sambamba_output.tsv")).map
    (fun f => (f, pySplitDotHead f))

/-- Directory mode of `main` (lines 281–287): run the pipeline once per
discovered file, with output prefix `f"{args.output_file_prefix}{file_prefix}"`.
`contents` gives each file's parsed rows. -/
def main_directory (directory : List String) (dirPre : String)
    (contents : String → List RawSambambaRow) (threshold : Int) :
    List (Except String (List (String × Output))) :=
  (find_files directory).map (fun fp =>
    generate_single_report (contents fp.1) (dirPre ++ fp.2) threshold)

/-- A sambamba input row with the given compound key and `percentage30`. -/
def mkRaw (key : String) (p30 : ℚ) : RawSambambaRow :=
  { chromosome := "1", startPosition := 26126711, endPosition := 26126914,
    fullPosition := "1-26126711-26126914", notUsed := 0, notUsedDot1 := "+",
    geneSymbolAccession := key, size := 57190, readCount := 142,
    meanCoverage := 39, percentage30 := p30, sampleName := "1" }

def c5_df : List SambambaRow :=
  (read_sambamba_input [mkRaw "SELENON;NM_020451.2" 49]).toOption.getD []

def c6_df : List SambambaRow :=
  (read_sambamba_input [mkRaw "SELENON;NM_020451.2" 100,
    mkRaw "SELENON;NM_020451.2" 49]).toOption.getD []

def c6_row : SambambaRow :=
  c6_df.headD { toRawSambambaRow := mkRaw "" 0, geneSymbol := "", accession := none }

def c4_subset : List SambambaRow :=
  (check_coverage ((read_sambamba_input
    [mkRaw "BRCA1;NM_1" 80, mkRaw "BRCA1;NM_1" 100, mkRaw "BRCA1;NM_1" 95]).toOption.getD [])
    100).1

def defaultSummaryRow : SummaryRow := ⟨"", none, 0, 0, 0, 0⟩

def c3_subset : List SambambaRow :=
  (check_coverage ((read_sambamba_input
    [mkRaw "BRCA1;NM_1" 80, mkRaw "TP53;NM_2" 50]).toOption.getD []) 100).1

def c2_input : List RawSambambaRow := [mkRaw "BRCA1;NM_1" 50]

def c7_df : List SambambaRow :=
  (read_sambamba_input [mkRaw "BRCA1;NM_1" 100]).toOption.getD []

def c9_bad : List RawSambambaRow := [mkRaw "BRCA1" 50]

def c9_mixed : List RawSambambaRow := [mkRaw "BRCA1;NM_1" 50, mkRaw "TP53" 60]

def c10_df : List SambambaRow :=
  (read_sambamba_input [mkRaw "G;A1" 50, mkRaw "G;A2" 100]).toOption.getD []

theorem mem_pdUnique {α : Type} [DecidableEq α] (a : α) :
    ∀ (l : List α), a ∈ pdUnique l ↔ a ∈ l
  | [] => Iff.rfl
  | x :: xs => by
    by_cases hax : a = x
    · subst hax; simp [pdUnique]
    · simp [pdUnique, List.mem_filter, hax, mem_pdUnique a xs]

theorem nodup_pdUnique {α : Type} [DecidableEq α] :
    ∀ (l : List α), (pdUnique l).Nodup
  | [] => List.nodup_nil
  | x :: xs => by
    refine List.Nodup.cons ?_ ((nodup_pdUnique xs).filter _)
    intro hx
    simp [List.mem_filter] at hx

theorem foldl_min_le_init : ∀ (xs : List ℚ) (x : ℚ), xs.foldl min x ≤ x
  | [], _ => le_refl _
  | y :: ys, x => le_trans (foldl_min_le_init ys (min x y)) (min_le_left x y)

theorem foldl_min_le_mem : ∀ (xs : List ℚ) (x y : ℚ), y ∈ xs → xs.foldl min x ≤ y
  | z :: zs, x, y, hy => by
    rcases List.mem_cons.1 hy with rfl | hy
    · exact le_trans (foldl_min_le_init zs (min x y)) (min_le_right x y)
    · exact foldl_min_le_mem zs (min x z) y hy

theorem foldl_min_mem : ∀ (xs : List ℚ) (x : ℚ), xs.foldl min x ∈ x :: xs
  | [], _ => List.mem_singleton.2 rfl
  | y :: ys, x => by
    have h := foldl_min_mem ys (min x y)
    rcases List.mem_cons.1 h with heq | hmem
    · rcases min_choice x y with hc | hc <;>
        (rw [List.foldl_cons, heq, hc]; simp)
    · rw [List.foldl_cons]
      exact List.mem_cons.2 (Or.inr (List.mem_cons.2 (Or.inr hmem)))

theorem init_le_foldl_max : ∀ (xs : List ℚ) (x : ℚ), x ≤ xs.foldl max x
  | [], _ => le_refl _
  | y :: ys, x => le_trans (le_max_left x y) (init_le_foldl_max ys (max x y))

theorem mem_le_foldl_max : ∀ (xs : List ℚ) (x y : ℚ), y ∈ xs → y ≤ xs.foldl max x
  | z :: zs, x, y, hy => by
    rcases List.mem_cons.1 hy with rfl | hy
    · exact le_trans (le_max_right x y) (init_le_foldl_max zs (max x y))
    · exact mem_le_foldl_max zs (max x z) y hy

theorem foldl_max_mem : ∀ (xs : List ℚ) (x : ℚ), xs.foldl max x ∈ x :: xs
  | [], _ => List.mem_singleton.2 rfl
  | y :: ys, x => by
    have h := foldl_max_mem ys (max x y)
    rcases List.mem_cons.1 h with heq | hmem
    · rcases max_choice x y with hc | hc <;>
        (rw [List.foldl_cons, heq, hc]; simp)
    · rw [List.foldl_cons]
      exact List.mem_cons.2 (Or.inr (List.mem_cons.2 (Or.inr hmem)))

theorem aggMin_le {l : List ℚ} {y : ℚ} (hy : y ∈ l) : aggMin l ≤ y := by
  match l, hy with
  | x :: xs, hy =>
    rcases List.mem_cons.1 hy with rfl | hy
    · exact foldl_min_le_init xs y
    · exact foldl_min_le_mem xs x y hy

theorem aggMin_mem {l : List ℚ} (h : l ≠ []) : aggMin l ∈ l := by
  match l, h with
  | x :: xs, _ => exact foldl_min_mem xs x

theorem le_aggMax {l : List ℚ} {y : ℚ} (hy : y ∈ l) : y ≤ aggMax l := by
  match l, hy with
  | x :: xs, hy =>
    rcases List.mem_cons.1 hy with rfl | hy
    · exact init_le_foldl_max xs y
    · exact mem_le_foldl_max xs x y hy

theorem aggMax_mem {l : List ℚ} (h : l ≠ []) : aggMax l ∈ l := by
  match l, h with
  | x :: xs, _ => exact foldl_max_mem xs x

theorem aggMin_le_aggMean {l : List ℚ} (h : l ≠ []) : aggMin l ≤ aggMean l := by
  have hlen : 0 < (l.length : ℚ) := by
    exact_mod_cast List.length_pos.2 h
  have hsum : (l.length : ℚ) * aggMin l ≤ l.sum := by
    have := List.card_nsmul_le_sum l (aggMin l) (fun x hx => aggMin_le hx)
    simpa [nsmul_eq_mul] using this
  rw [aggMean, le_div_iff₀ hlen]
  linarith

theorem aggMean_le_aggMax {l : List ℚ} (h : l ≠ []) : aggMean l ≤ aggMax l := by
  have hlen : 0 < (l.length : ℚ) := by
    exact_mod_cast List.length_pos.2 h
  have hsum : l.sum ≤ (l.length : ℚ) * aggMax l := by
    have := List.sum_le_card_nsmul l (aggMax l) (fun x hx => le_aggMax hx)
    simpa [nsmul_eq_mul] using this
  rw [aggMean, div_le_iff₀ hlen]
  linarith

theorem getD_mem {α : Type} : ∀ (l : List α) (n : Nat) (d : α), n < l.length → l.getD n d ∈ l
  | x :: xs, 0, d, _ => by simp
  | x :: xs, n + 1, d, h => by
    simp only [List.getD_cons_succ]
    exact List.mem_cons.2 (Or.inr (getD_mem xs n d (by simpa using h)))

theorem headD_mem {α : Type} : ∀ (l : List α) (d : α), l ≠ [] → l.headD d ∈ l
  | x :: xs, d, _ => by simp

theorem aggMedian_bounds {l : List ℚ} (h : l ≠ []) :
    aggMin l ≤ aggMedian l ∧ aggMedian l ≤ aggMax l := by
  have hn : 0 < l.length := List.length_pos.2 h
  have hlen : (l.insertionSort (· ≤ ·)).length = l.length :=
    List.length_insertionSort _ l
  have hmem : ∀ y ∈ l.insertionSort (· ≤ ·), y ∈ l := by
    intro y hy
    exact (List.mem_insertionSort _).1 hy
  have h2 : l.length / 2 < (l.insertionSort (· ≤ ·)).length := by
    rw [hlen]; exact Nat.div_lt_self hn (by norm_num)
  have h1 : l.length / 2 - 1 < (l.insertionSort (· ≤ ·)).length :=
    lt_of_le_of_lt (Nat.sub_le _ _) h2
  have hb : (l.insertionSort (· ≤ ·)).getD (l.length / 2) 0 ∈ l :=
    hmem _ (getD_mem _ _ _ h2)
  have ha : (l.insertionSort (· ≤ ·)).getD (l.length / 2 - 1) 0 ∈ l :=
    hmem _ (getD_mem _ _ _ h1)
  rw [aggMedian]
  split_ifs with hodd
  · exact ⟨aggMin_le hb, le_aggMax hb⟩
  · have hia := aggMin_le ha
    have hib := aggMin_le hb
    have hsa := le_aggMax ha
    have hsb := le_aggMax hb
    constructor <;> [linarith; linarith]

theorem data_mk (cs : List Char) : (String.mk cs).data = cs := rfl

theorem string_data_injective {s t : String} (h : s.data = t.data) : s = t :=
  congrArg String.mk h

theorem pySplitSemi_injective {s t : String} (h : pySplitSemi s = pySplitSemi t) : s = t := by
  have h2 : s.data.splitOn ';' = t.data.splitOn ';' := by
    have h3 := congrArg (List.map String.data) h
    have hcomp : (String.data ∘ fun cs => String.mk cs) = id := funext fun cs => rfl
    simpa [pySplitSemi, List.map_map, hcomp] using h3
  have h4 := List.intercalate_splitOn s.data ';'
  have h5 := List.intercalate_splitOn t.data ';'
  apply string_data_injective
  rw [← h4, ← h5, h2]

theorem pySplitSemi_eq_of_two {k k' : String}
    (hk : (pySplitSemi k).length = 2) (hk' : (pySplitSemi k').length = 2)
    (h1 : (pySplitSemi k).headD "" = (pySplitSemi k').headD "")
    (h2 : (pySplitSemi k).get? 1 = (pySplitSemi k').get? 1) : k = k' := by
  obtain ⟨a, b, hab⟩ := List.length_eq_two.1 hk
  obtain ⟨a', b', hab'⟩ := List.length_eq_two.1 hk'
  rw [hab, hab'] at h1 h2
  simp at h1 h2
  apply pySplitSemi_injective
  rw [hab, hab', h1, h2]

theorem pySplitSemi_no_semi {k : String} (h : (';' : Char) ∉ k.data) : pySplitSemi k = [k] := by
  have hsplit : k.data.splitOn ';' = [k.data] := by
    rw [List.splitOn]
    apply List.splitOnP_eq_single
    intro y hy
    simp only [beq_iff_eq]
    exact fun hc => h (hc ▸ hy)
  simp [pySplitSemi, hsplit]

theorem pySplitSemi_pair {g a : String} (hg : (';' : Char) ∉ g.data)
    (ha : (';' : Char) ∉ a.data) : pySplitSemi (g ++ ";" ++ a) = [g, a] := by
  have hdata : (g ++ ";" ++ a).data = g.data ++ ';' :: a.data := by
    simp [String.data_append]
  have hsplit : (g.data ++ ';' :: a.data).splitOn ';' = [g.data, a.data] := by
    have h5 := List.splitOn_intercalate [g.data, a.data] ';' ?_ (by simp)
    · simpa [List.intercalate, List.intersperse] using h5
    · intro l hl
      rcases List.mem_cons.1 hl with rfl | hl
      · exact hg
      · rcases List.mem_cons.1 hl with rfl | hl
        · exact ha
        · exact absurd hl (List.not_mem_nil l)
  rw [pySplitSemi, hdata, hsplit]
  simp

theorem except_eq_ok_getD {ε α : Type} (e : Except ε α) (d : α) (h : e.isOk = true) :
    e = .ok (e.toOption.getD d) := by
  cases e
  · simp [Except.isOk, Except.toBool] at h
  · simp [Except.toOption]

theorem summaryDf_eq_ok {subset : List SambambaRow} {rows : List SummaryRow}
    (h : summaryDf subset = .ok rows) :
    rows = (summaryKeys subset).map (summaryRowOf subset) := by
  simp only [summaryDf] at h
  split at h
  · simpa using h.symm
  · simp at h

theorem groupValues_ne_nil {subset : List SambambaRow} {k : String}
    (hk : k ∈ summaryKeys subset) : groupValues subset k ≠ [] := by
  rw [summaryKeys, mem_pdUnique] at hk
  obtain ⟨r, hr, hrk⟩ := List.mem_map.1 hk
  have hmem : r ∈ subset.filter (fun x => x.geneSymbolAccession = k) :=
    List.mem_filter.2 ⟨hr, by simp [hrk]⟩
  intro hnil
  rw [groupValues, List.map_eq_nil_iff] at hnil
  rw [hnil] at hmem
  exact absurd hmem (List.not_mem_nil r)

theorem mem_low_coverage_genes_list {df : List SambambaRow} {t : Int} {g : String} :
    g ∈ low_coverage_genes_list df t ↔
      ∃ r ∈ df, r.geneSymbol = g ∧ r.percentage30 < (t : ℚ) := by
  rw [low_coverage_genes_list, mem_pdUnique]
  simp only [lowCoverageExons, List.mem_map, List.mem_filter, decide_eq_true_eq]
  constructor
  · rintro ⟨r, ⟨hr, hp⟩, hg⟩
    exact ⟨r, hr, hg, hp⟩
  · rintro ⟨r, hr, hg, hp⟩
    exact ⟨r, ⟨hr, hp⟩, hg⟩

theorem pdUnique_ne_nil {α : Type} [DecidableEq α] {l : List α} (h : l ≠ []) :
    pdUnique l ≠ [] := by
  cases l
  · exact absurd rfl h
  · simp [pdUnique]

theorem foldl_max_nat_const :
    ∀ (ns : List Nat) (a c : Nat), (∀ n ∈ ns, n = c) → ns ≠ [] → ns.foldl max a = max a c
  | [n], a, c, h, _ => by
    rw [List.foldl_cons, List.foldl_nil, h n (List.mem_singleton.2 rfl)]
  | n :: m :: ms, a, c, h, _ => by
    rw [List.foldl_cons,
      foldl_max_nat_const (m :: ms) (max a n) c
        (fun x hx => h x (List.mem_cons_of_mem n hx)) (by simp),
      h n (List.mem_cons_self n _), max_assoc, max_self]

theorem expandWidth_summaryKeys {subset : List SambambaRow} (hne : subset ≠ [])
    (hwf : ∀ r ∈ subset, (pySplitSemi r.geneSymbolAccession).length = 2) :
    expandWidth (summaryKeys subset) = 2 := by
  have hkeys : ∀ k ∈ summaryKeys subset, (pySplitSemi k).length = 2 := by
    intro k hk
    rw [summaryKeys, mem_pdUnique] at hk
    obtain ⟨r, hr, hrk⟩ := List.mem_map.1 hk
    exact hrk ▸ hwf r hr
  have hmapne : subset.map (·.geneSymbolAccession) ≠ [] := by
    cases subset
    · exact absurd rfl hne
    · simp
  have hne2 : summaryKeys subset ≠ [] := pdUnique_ne_nil hmapne
  have hall : ∀ n ∈ (summaryKeys subset).map (fun k => (pySplitSemi k).length), n = 2 := by
    intro n hn
    obtain ⟨k, hk, rfl⟩ := List.mem_map.1 hn
    exact hkeys k hk
  have hmapne2 : (summaryKeys subset).map (fun k => (pySplitSemi k).length) ≠ [] := by
    simp only [ne_eq, List.map_eq_nil_iff]
    exact hne2
  rw [expandWidth, foldl_max_nat_const _ 0 2 hall hmapne2]
  decide

/-- Claim C1: a row lies in the detailed low-coverage subset returned by
`check_coverage` iff it is a row of the input and some input row of the same
`GeneSymbol` has `percentage30` strictly below the threshold: the subset
carries every row of a flagged gene and no row of an unflagged one. -/
theorem check_coverage_gene_level_subset (df : List SambambaRow) (t : Int) (r : SambambaRow) :
    r ∈ (check_coverage df t).1 ↔
      r ∈ df ∧ ∃ s ∈ df, s.geneSymbol = r.geneSymbol ∧ s.percentage30 < (t : ℚ) := by
  rw [check_coverage]
  simp only [List.mem_filter, decide_eq_true_eq]
  exact and_congr_right fun _ => mem_low_coverage_genes_list

/-- Claim C5: raising the threshold never shrinks the low-coverage gene
set computed by `check_coverage`. -/
theorem low_coverage_genes_threshold_mono (df : List SambambaRow) (t₁ t₂ : Int)
    (h : t₁ ≤ t₂) (g : String) (hg : g ∈ low_coverage_genes_list df t₁) :
    g ∈ low_coverage_genes_list df t₂ := by
  rw [mem_low_coverage_genes_list] at hg ⊢
  obtain ⟨r, hr, hrg, hrp⟩ := hg
  exact ⟨r, hr, hrg, lt_of_lt_of_le hrp (by exact_mod_cast h)⟩

/-- Claim C6: the default threshold is 100, and the bound is exclusive: a
row whose `percentage30` equals the threshold is not itself low coverage,
and its gene is selected iff some row of the gene is strictly below. -/
theorem threshold_exclusive_default_100 :
    default_threshold = 100 ∧
    ∀ (df : List SambambaRow) (t : Int) (r : SambambaRow), r ∈ df →
      r.percentage30 = (t : ℚ) →
      (r ∉ lowCoverageExons df t ∧
        (r.geneSymbol ∈ low_coverage_genes_list df t ↔
          ∃ s ∈ df, s.geneSymbol = r.geneSymbol ∧ s.percentage30 < (t : ℚ))) := by
  refine ⟨rfl, fun df t r hr hp => ⟨?_, mem_low_coverage_genes_list⟩⟩
  intro hmem
  simp only [lowCoverageExons, List.mem_filter, decide_eq_true_eq] at hmem
  rw [hp] at hmem
  exact absurd hmem.2 (lt_irrefl _)

/-- Witness for C5 at a concrete table and thresholds 60 ≤ 100. -/
theorem low_coverage_genes_threshold_mono_witness :
    (60 : Int) ≤ 100 ∧ "SELENON" ∈ low_coverage_genes_list c5_df 60 ∧
      "SELENON" ∈ low_coverage_genes_list c5_df 100 :=
  ⟨by decide, by decide,
    low_coverage_genes_threshold_mono c5_df 60 100 (by decide) "SELENON" (by decide)⟩

/-- Witness for C6 at a concrete table whose first row sits exactly at the
threshold. -/
theorem threshold_exclusive_default_100_witness :
    default_threshold = 100 ∧
    (c6_row ∉ lowCoverageExons c6_df 100 ∧
      (c6_row.geneSymbol ∈ low_coverage_genes_list c6_df 100 ↔
        ∃ s ∈ c6_df, s.geneSymbol = c6_row.geneSymbol ∧ s.percentage30 < ((100 : Int) : ℚ))) :=
  ⟨threshold_exclusive_default_100.1,
    threshold_exclusive_default_100.2 c6_df 100 c6_row (by decide) (by decide)⟩

/-- Claim C4: in every summary row the lowest coverage is at most the mean
and the median, and both are at most the highest coverage. -/
theorem summary_stats_bounded (subset : List SambambaRow) (rows : List SummaryRow)
    (h : summaryDf subset = .ok rows) (r : SummaryRow) (hr : r ∈ rows) :
    (r.lowestCoverage ≤ r.meanCoveragePerExon ∧ r.meanCoveragePerExon ≤ r.highestCoverage) ∧
    (r.lowestCoverage ≤ r.medianCoveragePerExon ∧ r.medianCoveragePerExon ≤ r.highestCoverage) := by
  rw [summaryDf_eq_ok h] at hr
  obtain ⟨k, hk, rfl⟩ := List.mem_map.1 hr
  have hne := groupValues_ne_nil hk
  exact ⟨⟨aggMin_le_aggMean hne, aggMean_le_aggMax hne⟩, aggMedian_bounds hne⟩

/-- Witness for C4 at the summary of a concrete three-exon gene. -/
theorem summary_stats_bounded_witness :
    ∃ r ∈ (summaryDf c4_subset).toOption.getD [],
      (r.lowestCoverage ≤ r.meanCoveragePerExon ∧ r.meanCoveragePerExon ≤ r.highestCoverage) ∧
      (r.lowestCoverage ≤ r.medianCoveragePerExon ∧ r.medianCoveragePerExon ≤ r.highestCoverage) := by
  have hok : (summaryDf c4_subset).isOk = true := by decide
  have heq := except_eq_ok_getD (summaryDf c4_subset) [] hok
  have hne : (summaryDf c4_subset).toOption.getD [] ≠ [] := by decide
  exact ⟨_, headD_mem _ defaultSummaryRow hne,
    summary_stats_bounded c4_subset _ heq _ (headD_mem _ defaultSummaryRow hne)⟩

/-- Claim C3: for a non-empty low-coverage subset whose compound keys all
split in two, the summary has exactly one row per distinct group — carrying
the min, max, mean and median of the group's `percentage30` values and the
split `GeneSymbol`/`Accession` — no other rows, and the stated column
order. -/
theorem summary_one_row_per_group (subset : List SambambaRow) (hne : subset ≠ [])
    (hwf : ∀ r ∈ subset, (pySplitSemi r.geneSymbolAccession).length = 2) :
    ∃ rows, summaryDf subset = .ok rows ∧ rows.Nodup ∧
      (∀ k ∈ summaryKeys subset,
        ∃! r, r ∈ rows ∧ r.geneSymbol = (pySplitSemi k).headD "" ∧
          r.accession = (pySplitSemi k).get? 1 ∧
          r.lowestCoverage = aggMin (groupValues subset k) ∧
          r.highestCoverage = aggMax (groupValues subset k) ∧
          r.meanCoveragePerExon = aggMean (groupValues subset k) ∧
          r.medianCoveragePerExon = aggMedian (groupValues subset k)) ∧
      (∀ r ∈ rows, ∃ k ∈ summaryKeys subset, r = summaryRowOf subset k) ∧
      summary_columns = ["GeneSymbol", "Accession", "LowestCoverage", "HighestCoverage",
        "MeanCoveragePerExon", "MedianCoveragePerExon"] := by
  have hw2 := expandWidth_summaryKeys hne hwf
  have hkeys : ∀ k ∈ summaryKeys subset, (pySplitSemi k).length = 2 := by
    intro k hk
    rw [summaryKeys, mem_pdUnique] at hk
    obtain ⟨r, hr, hrk⟩ := List.mem_map.1 hk
    exact hrk ▸ hwf r hr
  have hok : summaryDf subset = .ok ((summaryKeys subset).map (summaryRowOf subset)) := by
    simp only [summaryDf]
    rw [if_pos hw2]
  refine ⟨_, hok, ?_, ?_, ?_, rfl⟩
  · refine List.Nodup.map_on ?_ (nodup_pdUnique _)
    intro k hk k' hk' hrow
    have h1 : (pySplitSemi k).headD "" = (pySplitSemi k').headD "" :=
      congrArg SummaryRow.geneSymbol hrow
    have h2 : (pySplitSemi k).get? 1 = (pySplitSemi k').get? 1 :=
      congrArg SummaryRow.accession hrow
    exact pySplitSemi_eq_of_two (hkeys k hk) (hkeys k' hk') h1 h2
  · intro k hk
    refine ⟨summaryRowOf subset k,
      ⟨List.mem_map_of_mem _ hk, rfl, rfl, rfl, rfl, rfl, rfl⟩, ?_⟩
    rintro r' ⟨hr', hg, hacc, -, -, -, -⟩
    obtain ⟨k', hk', rfl⟩ := List.mem_map.1 hr'
    have hkk : k' = k := pySplitSemi_eq_of_two (hkeys k' hk') (hkeys k hk) hg hacc
    rw [hkk]
  · intro r hr
    obtain ⟨k, hk, rfl⟩ := List.mem_map.1 hr
    exact ⟨k, hk, rfl⟩

/-- Witness for C3 at a concrete two-gene low-coverage subset. -/
theorem summary_one_row_per_group_witness :
    (c3_subset ≠ [] ∧ ∀ r ∈ c3_subset, (pySplitSemi r.geneSymbolAccession).length = 2) ∧
    (∃ rows, summaryDf c3_subset = .ok rows ∧ rows.Nodup ∧
      (∀ k ∈ summaryKeys c3_subset,
        ∃! r, r ∈ rows ∧ r.geneSymbol = (pySplitSemi k).headD "" ∧
          r.accession = (pySplitSemi k).get? 1 ∧
          r.lowestCoverage = aggMin (groupValues c3_subset k) ∧
          r.highestCoverage = aggMax (groupValues c3_subset k) ∧
          r.meanCoveragePerExon = aggMean (groupValues c3_subset k) ∧
          r.medianCoveragePerExon = aggMedian (groupValues c3_subset k)) ∧
      (∀ r ∈ rows, ∃ k ∈ summaryKeys c3_subset, r = summaryRowOf c3_subset k) ∧
      summary_columns = ["GeneSymbol", "Accession", "LowestCoverage", "HighestCoverage",
        "MeanCoveragePerExon", "MedianCoveragePerExon"]) :=
  ⟨⟨by decide, by decide⟩, summary_one_row_per_group c3_subset (by decide) (by decide)⟩

/-- Claim C2 is false of the code: `generate_single_report` passes
`f"{output_file_prefix}_report.xlsx"` as the prefix to
`write_output_excels`, which appends the suffixes again, so for prefix
`"sample"` the two files written are
`sample_report.xlsx_summary_report.xlsx` and
`sample_report.xlsx_report.xlsx` — not `sample_report.xlsx` and
`sample_summary_report.xlsx`. -/
theorem generate_single_report_doubles_suffix :
    ((generate_single_report c2_input "sample" 100).toOption.getD []).map Prod.fst =
      ["sample_report.xlsx_summary_report.xlsx", "sample_report.xlsx_report.xlsx"] ∧
    "sample_report.xlsx" ∉
      ((generate_single_report c2_input "sample" 100).toOption.getD []).map Prod.fst ∧
    "sample_summary_report.xlsx" ∉
      ((generate_single_report c2_input "sample" 100).toOption.getD []).map Prod.fst :=
  ⟨by decide, by decide, by decide⟩

/-- Claim C7 is false of the code: on a table whose only row has
`percentage30 = 100` and threshold 100 the low-coverage subset is empty, as
the claim says, but `write_output_excels` then raises pandas'
`ValueError: Columns must be same length as key` (the key split of the
empty summary frame expands to zero columns) instead of writing two
header-only reports. -/
theorem empty_subset_write_raises :
    (∀ r ∈ c7_df, (100 : ℚ) ≤ r.percentage30) ∧
    (check_coverage c7_df 100).1 = [] ∧
    write_output_excels (check_coverage c7_df 100).1 "sample" =
      .error "Columns must be same length as key" ∧
    (generate_single_report [mkRaw "BRCA1;NM_1" 100] "sample" 100).isOk = false :=
  ⟨by decide, by decide, rfl, by decide⟩

/-- Claim C8: `find_files` keeps exactly the directory entries ending in
`sambamba_output.txt` or `sambamba_output.tsv`, pairing each with the part
of its name before the first dot; and in a concrete directory with two
qualifying files and one other file, directory mode runs the pipeline
exactly twice, each run writing its pair of reports under the caller
prefix combined with the file-derived prefix. -/
theorem find_files_selects_suffix :
    (∀ (directory : List String) (f p : String),
      (f, p) ∈ find_files directory ↔
        f ∈ directory ∧
        (pyEndsWith f "sambamba_output.txt" || pyEndsWith f "sambamba_output.tsv") = true ∧
        p = pySplitDotHead f) ∧
    (main_directory ["S1.sambamba_output.txt", "S2.sambamba_output.tsv", "notes.txt"] "run_"
        (fun file => if file = "S1.sambamba_output.txt" then [mkRaw "BRCA1;NM_1" 50]
          else [mkRaw "TP53;NM_2" 60]) 100).map
      (fun res => (res.toOption.getD []).map Prod.fst) =
      [["run_S1_report.xlsx_summary_report.xlsx", "run_S1_report.xlsx_report.xlsx"],
       ["run_S2_report.xlsx_summary_report.xlsx", "run_S2_report.xlsx_report.xlsx"]] := by
  constructor
  · intro directory f p
    constructor
    · intro h
      obtain ⟨g, hg, heq⟩ := List.mem_map.1 h
      obtain ⟨hgd, hpred⟩ := List.mem_filter.1 hg
      rw [Prod.ext_iff] at heq
      obtain ⟨h1, h2⟩ := heq
      simp only at h1 h2
      subst h1
      exact ⟨hgd, hpred, h2.symm⟩
    · rintro ⟨hf, hsuf, rfl⟩
      exact List.mem_map.2 ⟨f, List.mem_filter.2 ⟨hf, hsuf⟩, rfl⟩
  · decide

/-- Counterexample to claim C9: on a table whose only compound key,
`"BRCA1"`, contains no `';'`, the reader does fail — the one-token
expansion cannot be assigned to the two columns — rather than producing an
empty `Accession`. -/
theorem reader_all_malformed_keys_raises :
    (';' : Char) ∉ ("BRCA1" : String).data ∧
    read_sambamba_input c9_bad = .error "Columns must be same length as key" :=
  ⟨by decide, rfl⟩

/-- Claim C9 as amended: provided the key column's expansion has exactly
two columns (some key has one `';'` and none has more), a row whose key is
`g ++ ";" ++ a` gets `GeneSymbol = g` and `Accession = a`, and a row whose
key has no `';'` keeps the whole key as `GeneSymbol` with a missing
`Accession`; when no key contains `';'` the reader instead fails. -/
theorem reader_split_two_column (rows : List RawSambambaRow)
    (hw : expandWidth (rows.map (·.geneSymbolAccession)) = 2) :
    ∃ out, read_sambamba_input rows = .ok out ∧
      out.map (·.toRawSambambaRow) = rows ∧
      (∀ s ∈ out, ∀ g a : String, s.geneSymbolAccession = g ++ ";" ++ a →
        (';' : Char) ∉ g.data → (';' : Char) ∉ a.data →
        s.geneSymbol = g ∧ s.accession = some a) ∧
      (∀ s ∈ out, (';' : Char) ∉ s.geneSymbolAccession.data →
        s.geneSymbol = s.geneSymbolAccession ∧ s.accession = none) := by
  have hok : read_sambamba_input rows = .ok (rows.map (fun r =>
      { toRawSambambaRow := r
        geneSymbol := (pySplitSemi r.geneSymbolAccession).headD ""
        accession := (pySplitSemi r.geneSymbolAccession).get? 1 })) := by
    simp only [read_sambamba_input]
    rw [if_pos hw]
  refine ⟨_, hok, ?_, ?_, ?_⟩
  · rw [List.map_map]
    have hid : ((fun s : SambambaRow => s.toRawSambambaRow) ∘ (fun r : RawSambambaRow =>
        ({ toRawSambambaRow := r
           geneSymbol := (pySplitSemi r.geneSymbolAccession).headD ""
           accession := (pySplitSemi r.geneSymbolAccession).get? 1 } : SambambaRow))) = id :=
      funext fun r => rfl
    rw [hid, List.map_id]
  · intro s hs g a hkey hg ha
    obtain ⟨r, hr, rfl⟩ := List.mem_map.1 hs
    have hkey' : r.geneSymbolAccession = g ++ ";" ++ a := hkey
    constructor
    · show (pySplitSemi r.geneSymbolAccession).headD "" = g
      rw [hkey', pySplitSemi_pair hg ha]
      rfl
    · show (pySplitSemi r.geneSymbolAccession).get? 1 = some a
      rw [hkey', pySplitSemi_pair hg ha]
      rfl
  · intro s hs hnos
    obtain ⟨r, hr, rfl⟩ := List.mem_map.1 hs
    constructor
    · show (pySplitSemi r.geneSymbolAccession).headD "" = r.geneSymbolAccession
      rw [pySplitSemi_no_semi hnos]
      rfl
    · show (pySplitSemi r.geneSymbolAccession).get? 1 = none
      rw [pySplitSemi_no_semi hnos]
      rfl

/-- Witness for the amended C9 at a table mixing a well-formed key with a
semicolon-free key. -/
theorem reader_split_two_column_witness :
    expandWidth (c9_mixed.map (·.geneSymbolAccession)) = 2 ∧
    (∃ out, read_sambamba_input c9_mixed = .ok out ∧
      out.map (·.toRawSambambaRow) = c9_mixed ∧
      (∀ s ∈ out, ∀ g a : String, s.geneSymbolAccession = g ++ ";" ++ a →
        (';' : Char) ∉ g.data → (';' : Char) ∉ a.data →
        s.geneSymbol = g ∧ s.accession = some a) ∧
      (∀ s ∈ out, (';' : Char) ∉ s.geneSymbolAccession.data →
        s.geneSymbol = s.geneSymbolAccession ∧ s.accession = none)) :=
  ⟨by decide, reader_split_two_column c9_mixed (by decide)⟩

/-- Claim C10: with two accessions of one `GeneSymbol`, only one of them
under threshold, the summary of the expanded subset contains a
(`GeneSymbol`, `Accession`) group whose `LowestCoverage` is at or above
the threshold. -/
theorem summary_group_above_threshold_exists :
    (∃ r ∈ c10_df, r.geneSymbolAccession = "G;A1" ∧ r.percentage30 < 100) ∧
    (∀ r ∈ c10_df, r.geneSymbolAccession = "G;A2" → (100 : ℚ) ≤ r.percentage30) ∧
    (∃ r ∈ (summaryDf (check_coverage c10_df 100).1).toOption.getD [],
      r.geneSymbol = "G" ∧ r.accession = some "A2" ∧ (100 : ℚ) ≤ r.lowestCoverage) :=
  ⟨by decide, by decide, by decide⟩

end CoverageReport
